import Mathlib

/-!
Shallow embedding of the task-lifecycle core of the A2A sample agents:
`samples/python/agents/google_adk/task_manager.py` (class `AgentTaskManager`)
and `samples/python/agents/langgraph/agent.py` (class `CalendarAgent`).

External effects are made explicit: the task store and push-notification
registry are association lists threaded through each operation, the LLM agent
is an oracle function, push-URL verification is a Boolean oracle, and JSON
decoding (Python `json.loads`) is an oracle `String → Option PyVal` (`none`
models a decode exception).  Python exceptions are modelled with
`Except`/`Option`.
-/

namespace A2A

/-- A Python value as it occurs as agent `content` in this program: the
google_adk agent's `stream` yields either a joined text string or a
`function_response.model_dump()` mapping (agent.py lines 119-134), so only
strings and string-keyed mappings arise. -/
inductive PyVal where
  | str (s : String)
  | dict (fields : List (String × PyVal))

mutual

def PyVal.decEq : (a b : PyVal) → Decidable (a = b)
  | .str a, .str b =>
      if h : a = b then .isTrue (by rw [h]) else .isFalse (by simp [h])
  | .str _, .dict _ => .isFalse (by simp)
  | .dict _, .str _ => .isFalse (by simp)
  | .dict a, .dict b =>
      match PyVal.decEqFields a b with
      | .isTrue h => .isTrue (by rw [h])
      | .isFalse h => .isFalse (by simp [h])

def PyVal.decEqFields : (a b : List (String × PyVal)) → Decidable (a = b)
  | [], [] => .isTrue rfl
  | [], _ :: _ => .isFalse (by simp)
  | _ :: _, [] => .isFalse (by simp)
  | (k1, v1) :: r1, (k2, v2) :: r2 =>
      if hk : k1 = k2 then
        match PyVal.decEq v1 v2 with
        | .isTrue hv =>
            match PyVal.decEqFields r1 r2 with
            | .isTrue hr => .isTrue (by rw [hk, hv, hr])
            | .isFalse hr => .isFalse (by simp [hr])
        | .isFalse hv => .isFalse (by simp [hv])
      else .isFalse (by simp [hk])

end

instance : DecidableEq PyVal := PyVal.decEq

instance {ε α : Type} [DecidableEq ε] [DecidableEq α] :
    DecidableEq (Except ε α) := fun a b =>
  match a, b with
  | .ok a, .ok b =>
      if h : a = b then .isTrue (by rw [h]) else .isFalse (by simp [h])
  | .error a, .error b =>
      if h : a = b then .isTrue (by rw [h]) else .isFalse (by simp [h])
  | .ok _, .error _ => .isFalse (by simp)
  | .error _, .ok _ => .isFalse (by simp)

/-- First-match lookup in a Python dict modelled as an association list. -/
def dictLookup (fields : List (String × PyVal)) (k : String) : Option PyVal :=
  match fields with
  | [] => none
  | (k2, v) :: rest => if k2 = k then some v else dictLookup rest k

/-- `needle` occurs as a contiguous sublist of `hay` (Python substring test). -/
def listInfix (needle hay : List Char) : Bool :=
  match hay with
  | [] => needle.isEmpty
  | _ :: rest => needle.isPrefixOf hay || listInfix needle rest

/-- Python `needle in hay` on strings: substring containment. -/
def strContains (hay needle : String) : Bool :=
  listInfix needle.data hay.data

/-- Python `k in v`: key membership on a dict, substring test on a string. -/
def pyIn (k : String) (v : PyVal) : Bool :=
  match v with
  | .str s => strContains s k
  | .dict fields => (dictLookup fields k).isSome

/-- Task lifecycle states used by this excerpt (common.types `TaskState`). -/
inductive TaskState where
  | submitted
  | working
  | input_required
  | completed
deriving DecidableEq

/-- A content part: the task manager builds `text` parts and `data` parts;
`file` stands for any non-text inbound part kind (for `_get_user_query`). -/
inductive Part where
  | text (s : String)
  | data (d : PyVal)
  | file (name : String)
deriving DecidableEq

structure Message where
  role : String
  parts : List Part
deriving DecidableEq

structure TaskStatus where
  state : TaskState
  message : Option Message := none
deriving DecidableEq

structure Artifact where
  parts : List Part
  index : Nat := 0
  append : Option Bool := none
deriving DecidableEq

structure Task where
  id : String
  sessionId : String
  status : TaskStatus
  artifacts : Option (List Artifact)
deriving DecidableEq

structure PushNotificationConfig where
  url : String
deriving DecidableEq

structure TaskSendParams where
  id : String
  sessionId : String
  message : Message
  acceptedOutputModes : List String
  pushNotification : Option PushNotificationConfig := none
deriving DecidableEq

/-- One request envelope (`SendTaskRequest` and `SendTaskStreamingRequest`
have the same shape: a JSON-RPC id plus `TaskSendParams`). -/
structure SendTaskRequest where
  id : String
  params : TaskSendParams
deriving DecidableEq

/-- Python-dict semantics for a string-keyed store: first-match lookup. -/
def storeGet {α : Type} (l : List (String × α)) (k : String) : Option α :=
  match l with
  | [] => none
  | (k2, v) :: rest => if k2 = k then some v else storeGet rest k

/-- Python-dict assignment: replace the bound value, or append a new binding. -/
def storeSet {α : Type} (l : List (String × α)) (k : String) (v : α) :
    List (String × α) :=
  match l with
  | [] => [(k, v)]
  | (k2, v2) :: rest =>
      if k2 = k then (k2, v) :: rest else (k2, v2) :: storeSet rest k v

/-- The mutable state owned by `InMemoryTaskManager`: the task store and the
push-notification registry, both keyed by task id. -/
structure TMState where
  tasks : List (String × Task)
  pushConfigs : List (String × PushNotificationConfig)
deriving DecidableEq

/-- The protocol-level errors this excerpt returns. -/
inductive ErrKind where
  | incompatibleTypes
  | invalidParams (msg : String)
  | internal (msg : String)
deriving DecidableEq

/-- `ActivityTrackerAgent.SUPPORTED_CONTENT_TYPES` (agent.py line 66). -/
def SUPPORTED_CONTENT_TYPES : List String := ["text", "text/plain"]

/-- Modelled from the spec: `common.server.utils.are_modalities_compatible`
is outside this excerpt; the spec (§4.1 step 1) says accepted output modes
"must intersect the Agent's supported content types". -/
def are_modalities_compatible (accepted supported : List String) : Bool :=
  accepted.any (fun m => supported.contains m)

/-- Modelled from the spec: `InMemoryTaskManager.upsert_task` is outside this
excerpt; the spec says "create if absent, else leave existing fields
untouched" (§4.1 step 3), with the implicit initial state `SUBMITTED` owned
by the store on upsert (§4.4). -/
def upsert_task (st : TMState) (p : TaskSendParams) : TMState :=
  match storeGet st.tasks p.id with
  | some _ => st
  | none =>
      { st with
        tasks := storeSet st.tasks p.id
          { id := p.id, sessionId := p.sessionId
            status := { state := .submitted }, artifacts := none } }

/-- Modelled from the spec: the base-class `set_push_notification_info` of
`InMemoryTaskManager` (outside this excerpt) registers the config 1:1 with
the task id; a later verified config may overwrite it (§3, §4.3). -/
def base_set_push_notification_info (st : TMState) (task_id : String)
    (cfg : PushNotificationConfig) : TMState :=
  { st with pushConfigs := storeSet st.pushConfigs task_id cfg }

/-- Modelled from the spec: the base-class registry membership test used by
`send_task_notification` (§4.3). -/
def has_push_notification_info (st : TMState) (task_id : String) : Bool :=
  (storeGet st.pushConfigs task_id).isSome

/-- Modelled from the spec: the base-class registry lookup; a config is
"queryable" exactly when a successful registration stored it (§4.3). -/
def get_push_notification_info (st : TMState) (task_id : String) :
    Option PushNotificationConfig :=
  storeGet st.pushConfigs task_id

/-- `AgentTaskManager.set_push_notification_info` (task_manager.py lines
204-211): challenge-verify the URL first; only on success delegate to the
base-class registration.  `verify` is the oracle for
`PushNotificationSenderAuth.verify_push_notification_url`. -/
def set_push_notification_info (verify : String → Bool) (st : TMState)
    (task_id : String) (cfg : PushNotificationConfig) : Bool × TMState :=
  if verify cfg.url then (true, base_set_push_notification_info st task_id cfg)
  else (false, st)

/-- `AgentTaskManager.send_task_notification` (lines 192-202): a logged no-op
when no config is registered for the task id, else deliver the task snapshot.
Deliveries are recorded by appending the task to `notifs`. -/
def send_task_notification (st : TMState) (notifs : List Task) (task : Task) :
    List Task :=
  if has_push_notification_info st task.id then notifs ++ [task] else notifs

/-- `AgentTaskManager._get_user_query` (lines 186-190): the first inbound
part must be a `TextPart`; `.error` models the raised exception (Python also
raises `IndexError` when the parts list is empty). -/
def get_user_query (p : TaskSendParams) : Except String String :=
  match p.message.parts with
  | [] => .error "list index out of range"
  | part :: _ =>
      match part with
      | .text s => .ok s
      | _ => .error "Only text parts are supported"

/-- `AgentTaskManager._validate_request` (lines 103-121): accepted output
modes must be compatible with the agent's supported content types, and a
present push-notification config must have a non-empty URL. -/
def validate_request (p : TaskSendParams) : Option ErrKind :=
  if ¬ are_modalities_compatible p.acceptedOutputModes SUPPORTED_CONTENT_TYPES
  then some .incompatibleTypes
  else
    match p.pushNotification with
    | some cfg =>
        if cfg.url = "" then
          some (.invalidParams "Push notification URL is missing")
        else none
    | none => none

/-- `AgentTaskManager._update_store` (lines 151-167): look the task up
(raising when absent), replace its status wholesale, and extend its artifact
list when `artifacts` is not `None` (initialising it to `[]` first when it
was `None`). -/
def update_store (st : TMState) (task_id : String) (status : TaskStatus)
    (artifacts : Option (List Artifact)) : Except String (Task × TMState) :=
  match storeGet st.tasks task_id with
  | none => .error ("Task " ++ task_id ++ " not found")
  | some task =>
      let task1 := { task with status := status }
      let task2 :=
        match artifacts with
        | none => task1
        | some arts =>
            { task1 with artifacts := some (task1.artifacts.getD [] ++ arts) }
      .ok (task2, { st with tasks := storeSet st.tasks task_id task2 })

/-- The outcome of `on_send_task`: a response (task, protocol error, or an
uncaught exception), the state after the call, the notified task snapshots,
and the queries the agent was invoked with. -/
inductive SyncResult where
  | ok (t : Task)
  | err (e : ErrKind)
  | raised (msg : String)
deriving DecidableEq

structure SyncOutcome where
  result : SyncResult
  state : TMState
  notifications : List Task
  agentCalls : List String
deriving DecidableEq

/-- `AgentTaskManager._invoke` (lines 168-185): extract the query, invoke the
agent (an exception is re-raised wrapped), map the string result to one text
part, pick `INPUT_REQUIRED` exactly when the result contains the literal
substring "MISSING_INFO:", persist status plus one new artifact (whose
`index`/`append` take the common-library defaults 0/`None`), and return the
updated task.  Returns (result, state, agent queries made). -/
def tm_invoke (agent : String → Except String String) (st : TMState)
    (p : TaskSendParams) : SyncResult × TMState × List String :=
  match get_user_query p with
  | .error e => (.raised e, st, [])
  | .ok query =>
      match agent query with
      | .error e => (.raised ("Error invoking agent: " ++ e), st, [query])
      | .ok result =>
          let parts := [Part.text result]
          let task_state :=
            if strContains result "MISSING_INFO:" then TaskState.input_required
            else TaskState.completed
          match update_store st p.id
              { state := task_state
                message := some { role := "agent", parts := parts } }
              (some [{ parts := parts }]) with
          | .error e => (.raised e, st, [query])
          | .ok (task, st2) => (.ok task, st2, [query])

/-- The tail of `on_send_task` after validation and push-config registration
(lines 131-136): upsert, transition to `WORKING` with artifacts `[]`, notify,
then `_invoke`. -/
def on_send_task_core (agent : String → Except String String)
    (req : SendTaskRequest) (st : TMState) : SyncOutcome :=
  let st1 := upsert_task st req.params
  match update_store st1 req.params.id { state := .working } (some []) with
  | .error e => { result := .raised e, state := st1, notifications := [], agentCalls := [] }
  | .ok (task, st2) =>
      let notifs := send_task_notification st2 [] task
      let (r, st3, calls) := tm_invoke agent st2 req.params
      { result := r, state := st3, notifications := notifs, agentCalls := calls }

/-- `AgentTaskManager.on_send_task` (lines 122-136): validate, register a
present push-notification config (failing with "invalid params" when the
challenge fails), then run the core path. -/
def on_send_task (verify : String → Bool)
    (agent : String → Except String String) (req : SendTaskRequest)
    (st : TMState) : SyncOutcome :=
  match validate_request req.params with
  | some e => { result := .err e, state := st, notifications := [], agentCalls := [] }
  | none =>
      match req.params.pushNotification with
      | some cfg =>
          let (ok, st1) := set_push_notification_info verify st req.params.id cfg
          if ok then on_send_task_core agent req st1
          else
            { result := .err (.invalidParams "Push notification URL is invalid")
              state := st1, notifications := [], agentCalls := [] }
      | none => on_send_task_core agent req st

/-- One item yielded by the agent's `stream`: the task manager reads
`item["is_task_complete"]` always, `item["updates"]` only on incomplete
items, and `item["content"]` only on complete items. -/
structure StreamItem where
  is_task_complete : Bool
  updates : String := ""
  content : PyVal := .str ""
deriving DecidableEq

/-- `_stream_generator` lines 50-61 for a complete item: dispatch on the
shape of `content`.  `"result" in content["response"]` is Python `in`
(substring on a string value, key test on a dict value); subscripting a
string value with a string, feeding a non-string to `json.loads`, or a
failed decode all raise (`.error`), to be caught by the generator's handler. -/
def handle_complete_content (decode : String → Option PyVal) (content : PyVal) :
    Except Unit (TaskState × List Part) :=
  match content with
  | .dict fields =>
      match dictLookup fields "response" with
      | some resp =>
          if pyIn "result" resp then
            match resp with
            | .str _ => .error ()
            | .dict rfields =>
                match dictLookup rfields "result" with
                | some (.str s) =>
                    match decode s with
                    | some d => .ok (.input_required, [Part.data d])
                    | none => .error ()
                | some (.dict _) => .error ()
                | none => .error ()
          else .ok (.completed, [Part.data content])
      | none => .ok (.completed, [Part.data content])
  | .str s => .ok (.completed, [Part.text s])

/-- The loop variables of `_stream_generator`'s `async for` body after one
iteration: every iteration rebinds all four of them (lines 44-62). -/
structure LoopVars where
  is_task_complete : Bool
  task_state : TaskState
  parts : List Part
  artifacts : Option (List Artifact)
deriving DecidableEq

/-- One iteration of the `async for` body (lines 44-62): incomplete items
give a `WORKING` text update and leave `artifacts = None`; complete items
dispatch on content and build the single `Artifact(index=0, append=False)`. -/
def stream_loop_body (decode : String → Option PyVal) (item : StreamItem) :
    Except Unit LoopVars :=
  if ¬ item.is_task_complete then
    .ok { is_task_complete := false, task_state := .working
          parts := [Part.text item.updates], artifacts := none }
  else
    match handle_complete_content decode item.content with
    | .ok (st, ps) =>
        .ok { is_task_complete := true, task_state := st, parts := ps
              artifacts := some [{ parts := ps, index := 0, append := some false }] }
    | .error e => .error e

/-- Run the whole `async for` loop: the loop variables surviving to the
post-loop code are those of the last iteration; `none` means the agent
stream was empty and they were never bound. -/
def run_stream_loop (decode : String → Option PyVal) :
    List StreamItem → Except Unit (Option LoopVars)
  | [] => .ok none
  | item :: rest =>
      match stream_loop_body decode item with
      | .error e => .error e
      | .ok v =>
          match run_stream_loop decode rest with
          | .error e => .error e
          | .ok none => .ok (some v)
          | .ok (some v2) => .ok (some v2)

/-- An element of the streaming response sequence. -/
inductive StreamEvent where
  | status (id : String) (st : TaskStatus) (final : Bool)
  | artifact (id : String) (a : Artifact)
  | errorResp (e : ErrKind)
deriving DecidableEq

/-- The observable outcome of draining `_stream_generator`: `raised` models
an exception escaping the generator itself (only `_get_user_query`, line 41,
sits outside its `try`), then the yielded events, the state after
consumption, the notified snapshots, and the agent queries made. -/
structure StreamOutcome where
  raised : Option String := none
  events : List StreamEvent
  state : TMState
  notifications : List Task := []
  agentCalls : List String := []
deriving DecidableEq

/-- The single terminal error response the generator's `except` yields. -/
def streamInternalError : StreamEvent :=
  .errorResp (.internal "An error occurred while streaming the response")

/-- `AgentTaskManager._stream_generator` (lines 37-102), drained by its one
consumer.  Any exception inside the `try` — a loop-body exception, reading
the never-bound loop variables after an empty stream, or `_update_store` on
a missing task — yields exactly the one internal-error response; on success
it persists only the last iteration's status/artifacts, notifies, and yields
the non-final status event, the artifact events, and (when complete) the
final status event carrying only the state. -/
def stream_generator (decode : String → Option PyVal)
    (agentStream : String → List StreamItem) (req : SendTaskRequest)
    (st : TMState) : StreamOutcome :=
  match get_user_query req.params with
  | .error e => { raised := some e, events := [], state := st }
  | .ok query =>
      let items := agentStream query
      match run_stream_loop decode items with
      | .error _ =>
          { events := [streamInternalError], state := st, agentCalls := [query] }
      | .ok none =>
          { events := [streamInternalError], state := st, agentCalls := [query] }
      | .ok (some v) =>
          let task_status : TaskStatus :=
            { state := v.task_state
              message := some { role := "agent", parts := v.parts } }
          match update_store st req.params.id task_status v.artifacts with
          | .error _ =>
              { events := [streamInternalError], state := st, agentCalls := [query] }
          | .ok (latest, st2) =>
              let notifs := send_task_notification st2 [] latest
              let statusEvents := [StreamEvent.status req.params.id task_status false]
              let artifactEvents :=
                (v.artifacts.getD []).map
                  (fun a => StreamEvent.artifact req.params.id a)
              let finalEvents :=
                if v.is_task_complete then
                  [StreamEvent.status req.params.id { state := v.task_state } true]
                else []
              { events := statusEvents ++ artifactEvents ++ finalEvents
                state := st2, notifications := notifs, agentCalls := [query] }

/-- The value `on_send_task_subscribe` hands back: an immediate error
response, or the (drained) stream. -/
inductive SubscribeResult where
  | errResp (e : ErrKind)
  | stream (o : StreamOutcome)
deriving DecidableEq

/-- `AgentTaskManager.on_send_task_subscribe` (lines 137-150): validate, then
upsert the task, then register a present push-notification config (failing
with "invalid params" when the challenge fails), then hand back the stream
generator.  Returns the result together with the state after the call. -/
def on_send_task_subscribe (verify : String → Bool)
    (decode : String → Option PyVal)
    (agentStream : String → List StreamItem) (req : SendTaskRequest)
    (st : TMState) : SubscribeResult × TMState :=
  match validate_request req.params with
  | some e => (.errResp e, st)
  | none =>
      let st1 := upsert_task st req.params
      match req.params.pushNotification with
      | some cfg =>
          let (ok, st2) := set_push_notification_info verify st1 req.params.id cfg
          if ok then
            let o := stream_generator decode agentStream req st2
            (.stream o, o.state)
          else
            (.errResp (.invalidParams "Push notification URL is invalid"), st2)
      | none =>
          let o := stream_generator decode agentStream req st1
          (.stream o, o.state)

/-! ### CalendarAgent (samples/python/agents/langgraph/agent.py) -/

/-- The apostrophe character, as a string. -/
def apos : String := String.singleton (Char.ofNat 39)

/-- The `start`/`end` field of a Google Calendar event: a `dateTime` or an
all-day `date`, either possibly absent. -/
structure EventTime where
  dateTime : Option String := none
  date : Option String := none
deriving DecidableEq

instance : Inhabited EventTime := ⟨{}⟩

/-- One fetched calendar event, with the fields `_plan_my_day` reads.  The
Python dict key "end" is a Lean keyword, rendered `stop`. -/
structure CalEvent where
  start : EventTime
  stop : EventTime
  summary : Option String := none
deriving DecidableEq

instance : Inhabited CalEvent := ⟨{ start := {}, stop := {} }⟩

/-- Python `e["start"].get("dateTime", e["start"].get("date"))`. -/
def evKey (t : EventTime) : Option String :=
  match t.dateTime with
  | some s => some s
  | none => t.date

/-- Python str() of a possibly-absent value inside an f-string. -/
def pyShow (o : Option String) : String :=
  match o with
  | some s => s
  | none => "None"

/-- `CalendarAgent._plan_my_day` (agent.py lines 130-157).  `parseDt` is the
oracle for `dateparser.parse` composed with datetime comparison (a total
order key; parse failures cannot matter to any claim, which only exercises
the empty-events branch), and `fmtHM` is the oracle for
`datetime.strftime("%H:%M")`. -/
def plan_my_day (parseDt : Option String → Int) (fmtHM : Int → String)
    (events : List CalEvent) : String :=
  if events.isEmpty then
    "You have no events scheduled for today. Your day is wide open!"
  else
    let events_sorted :=
      events.mergeSort (fun a b => parseDt (evKey a.start) ≤ parseDt (evKey b.start))
    let first_event := events_sorted.headI
    let last_event := events_sorted.getLastI
    let first_time := pyShow (evKey first_event.start)
    let last_time := pyShow (evKey last_event.stop)
    let header :=
      ["You have " ++ toString events_sorted.length ++ " event(s) today.",
       "First event: " ++ first_time ++ " - " ++ first_event.summary.getD "(No Title)",
       "Last event: " ++ last_time ++ " - " ++ last_event.summary.getD "(No Title)"]
    let free_slots :=
      (events_sorted.zip events_sorted.tail).filterMap fun (cur, next) =>
        let end_current := parseDt (evKey cur.stop)
        let start_next := parseDt (evKey next.start)
        if end_current < start_next then
          some ("Free from " ++ fmtHM end_current ++ " to " ++ fmtHM start_next)
        else none
    let summary_lines :=
      if ¬ free_slots.isEmpty then
        header ++ ["Suggested free slots for breaks or tasks:"] ++ free_slots
      else
        header ++
          ["No free slots between events. Consider scheduling breaks before your first or after your last event."]
    String.intercalate "\n" summary_lines

/-- What `CalendarAgent._fetch_events` came back with: the event list, or the
`{"error": ...}` dict it returns on an `HttpError`. -/
inductive FetchResult where
  | events (es : List CalEvent)
  | error (msg : String)
deriving DecidableEq

/-- The result dict of `CalendarAgent.invoke`. -/
structure InvokeResult where
  is_task_complete : Bool
  require_user_input : Bool
  content : String
deriving DecidableEq

/-- Python `str.lower()` on one character (the queries and trigger phrases
involved are ASCII). -/
def charLower (c : Char) : Char :=
  if 65 ≤ c.toNat ∧ c.toNat ≤ 90 then Char.ofNat (c.toNat + 32) else c

/-- Python `str.lower()`. -/
def strLower (s : String) : String := ⟨s.data.map charLower⟩

/-- The day-planning trigger phrases of `CalendarAgent.invoke` (line 162). -/
def PLAN_TRIGGERS : List String :=
  ["plan my day", "organize my day", "what" ++ apos ++ "s my schedule",
   "day at a glance"]

/-- `CalendarAgent.invoke` (agent.py lines 159-179): when the lowercased
query contains a day-planning trigger phrase, fetch today's events (`fetch`
is the oracle for `_fetch_events`), surface a fetch error as an incomplete
result, else append to the Excel log (an external file effect with no
observable result here) and return the completed day plan.  The remaining
branches of `invoke` (lines 180-242) are driven by `dateparser` and the
calendar API and are outside every claim; they are abstracted as
`fallback`. -/
def calendar_invoke (fetch : FetchResult) (parseDt : Option String → Int)
    (fmtHM : Int → String) (fallback : InvokeResult) (query : String) :
    InvokeResult :=
  if PLAN_TRIGGERS.any (fun w => strContains (strLower query) w) then
    match fetch with
    | .error e =>
        { is_task_complete := false, require_user_input := true, content := e }
    | .events es =>
        { is_task_complete := true, require_user_input := false
          content := plan_my_day parseDt fmtHM es }
  else fallback

/-! ### Helper lemmas and shared concrete fixtures -/

theorem storeGet_storeSet_self {α : Type} (l : List (String × α)) (k : String)
    (v : α) : storeGet (storeSet l k v) k = some v := by
  induction l with
  | nil => simp [storeGet, storeSet]
  | cons hd tl ih =>
      obtain ⟨k2, v2⟩ := hd
      by_cases h : k2 = k <;> simp [storeGet, storeSet, h, ih]

theorem upsert_task_get (st : TMState) (p : TaskSendParams) :
    ∃ t, storeGet (upsert_task st p).tasks p.id = some t := by
  cases h : storeGet st.tasks p.id with
  | some t => exact ⟨t, by simp [upsert_task, h]⟩
  | none =>
      exact ⟨{ id := p.id, sessionId := p.sessionId
               status := { state := .submitted }, artifacts := none },
             by simp only [upsert_task, h]; exact storeGet_storeSet_self ..⟩

/-- A request fixture used by the concrete witnesses: a one-text-part
message, compatible output modes, no push config. -/
def exMsg : Message := { role := "user", parts := [Part.text "hi"] }

def exParams : TaskSendParams :=
  { id := "t1", sessionId := "s1", message := exMsg
    acceptedOutputModes := ["text"] }

def exReq : SendTaskRequest := { id := "r1", params := exParams }

/-- The empty manager state. -/
def exSt : TMState := { tasks := [], pushConfigs := [] }

/-- A push-notification config fixture. -/
def exCfg : PushNotificationConfig := { url := "http://localhost/notify" }

/-! ### Claims -/

theorem tm_invoke_success (agent : String → Except String String)
    (st : TMState) (p : TaskSendParams) (t : Task) (st3 : TMState)
    (calls : List String)
    (h : tm_invoke agent st p = (.ok t, st3, calls)) :
    ∃ query result,
      get_user_query p = .ok query ∧
      agent query = .ok result ∧
      calls = [query] ∧
      storeGet st3.tasks p.id = some t ∧
      t.status.state =
        (if strContains result "MISSING_INFO:" then TaskState.input_required
         else TaskState.completed) ∧
      t.status.message = some { role := "agent", parts := [Part.text result] } ∧
      ∃ prior, t.artifacts = some (prior ++ [{ parts := [Part.text result] }]) := by
  cases hq : get_user_query p with
  | error e => simp [tm_invoke, hq] at h
  | ok query =>
      cases ha : agent query with
      | error e => simp [tm_invoke, hq, ha] at h
      | ok result =>
          cases hg : storeGet st.tasks p.id with
          | none => simp [tm_invoke, hq, ha, update_store, hg] at h
          | some old =>
              simp only [tm_invoke, hq, ha, update_store, hg,
                Prod.mk.injEq, SyncResult.ok.injEq] at h
              obtain ⟨h1, h2, h3⟩ := h
              subst_vars
              refine ⟨query, result, rfl, ha, rfl, ?_, rfl, rfl,
                old.artifacts.getD [], rfl⟩
              exact storeGet_storeSet_self ..

theorem on_send_task_core_success (agent : String → Except String String)
    (req : SendTaskRequest) (st1 : TMState) (t : Task)
    (h : (on_send_task_core agent req st1).result = .ok t) :
    ∃ query result,
      get_user_query req.params = .ok query ∧
      agent query = .ok result ∧
      storeGet (on_send_task_core agent req st1).state.tasks req.params.id =
        some t ∧
      t.status.state =
        (if strContains result "MISSING_INFO:" then TaskState.input_required
         else TaskState.completed) ∧
      t.status.message = some { role := "agent", parts := [Part.text result] } ∧
      ∃ prior, t.artifacts = some (prior ++ [{ parts := [Part.text result] }]) := by
  cases hu : update_store (upsert_task st1 req.params) req.params.id
      { state := .working } (some []) with
  | error e => simp [on_send_task_core, hu] at h
  | ok pair =>
      obtain ⟨task, st2⟩ := pair
      cases hti : tm_invoke agent st2 req.params with
      | mk r rest =>
          obtain ⟨st3, calls⟩ := rest
          simp only [on_send_task_core, hu, hti] at h ⊢
          subst h
          obtain ⟨query, result, hq, ha, hc, hs, h1, h2, h3⟩ :=
            tm_invoke_success agent st2 req.params t st3 calls hti
          exact ⟨query, result, hq, ha, hs, h1, h2, h3⟩

/-- C1: whenever `on_send_task` returns successfully, the agent produced a
string result, the task stored under the request's task id is the returned
task, its status state is `COMPLETED` unless the result contains the literal
substring "MISSING_INFO:" (then `INPUT_REQUIRED`), its status message is one
agent text part equal to the result string, and exactly one artifact with
that single text part was appended to the task's artifact sequence. -/
theorem C1_on_send_task_success (verify : String → Bool)
    (agent : String → Except String String) (req : SendTaskRequest)
    (st : TMState) (t : Task)
    (h : (on_send_task verify agent req st).result = .ok t) :
    ∃ query result,
      get_user_query req.params = .ok query ∧
      agent query = .ok result ∧
      storeGet (on_send_task verify agent req st).state.tasks req.params.id =
        some t ∧
      t.status.state =
        (if strContains result "MISSING_INFO:" then TaskState.input_required
         else TaskState.completed) ∧
      t.status.message = some { role := "agent", parts := [Part.text result] } ∧
      ∃ prior, t.artifacts = some (prior ++ [{ parts := [Part.text result] }]) := by
  cases hv : validate_request req.params with
  | some e => simp [on_send_task, hv] at h
  | none =>
      cases hp : req.params.pushNotification with
      | none =>
          simp only [on_send_task, hv, hp] at h ⊢
          exact on_send_task_core_success agent req st t h
      | some cfg =>
          cases hvf : verify cfg.url with
          | false =>
              simp [on_send_task, hv, hp, set_push_notification_info, hvf] at h
          | true =>
              simp only [on_send_task, hv, hp, set_push_notification_info,
                hvf, if_true] at h ⊢
              exact on_send_task_core_success agent req
                (base_set_push_notification_info st req.params.id cfg) t h

theorem C1_witness :
    (on_send_task (fun _ => true) (fun _ => .ok "hello") exReq exSt).result =
        .ok { id := "t1", sessionId := "s1"
              status := { state := .completed
                          message := some { role := "agent"
                                            parts := [Part.text "hello"] } }
              artifacts := some [{ parts := [Part.text "hello"] }] } ∧
    ∃ query result,
      get_user_query exReq.params = .ok query ∧
      (fun (_ : String) => Except.ok (ε := String) "hello") query = .ok result ∧
      storeGet (on_send_task (fun _ => true) (fun _ => .ok "hello") exReq
          exSt).state.tasks exReq.params.id =
        some { id := "t1", sessionId := "s1"
               status := { state := .completed
                           message := some { role := "agent"
                                             parts := [Part.text "hello"] } }
               artifacts := some [{ parts := [Part.text "hello"] }] } :=
  ⟨by decide,
   match C1_on_send_task_success (fun _ => true) (fun _ => .ok "hello") exReq
       exSt _ (by decide) with
   | ⟨q, r, h1, h2, h3, _⟩ => ⟨q, r, h1, h2, h3⟩⟩

/-- C3 (amended): for a complete stream item, the status and parts are
determined by the shape of `content` as the code actually dispatches it: a
mapping whose "response" entry is a mapping with a "result" entry holding a
string that JSON-decodes gives `INPUT_REQUIRED` with one data part holding
the decoded value; a mapping where the check `"result" in
content["response"]` comes out false (no "response" entry, a "response"
mapping without "result", or a "response" string not containing the
substring "result") gives `COMPLETED` with one data part holding the mapping
itself; a plain string gives `COMPLETED` with one text part; the remaining
mapping shapes (a "response" string containing "result", or a
"response.result" entry that is not a string or fails to decode) raise
instead; and every successfully dispatched complete item builds exactly one
`Artifact` with `index = 0` and `append = False` from the parts. -/
theorem C3_complete_content_dispatch (decode : String → Option PyVal)
    (content : PyVal) :
    (∀ s, content = .str s →
      handle_complete_content decode content =
        .ok (.completed, [Part.text s])) ∧
    (∀ fields rfields s d, content = .dict fields →
      dictLookup fields "response" = some (.dict rfields) →
      dictLookup rfields "result" = some (.str s) →
      decode s = some d →
      handle_complete_content decode content =
        .ok (.input_required, [Part.data d])) ∧
    (∀ fields, content = .dict fields →
      (dictLookup fields "response" = none ∨
       (∃ rfields, dictLookup fields "response" = some (.dict rfields) ∧
          dictLookup rfields "result" = none) ∨
       (∃ s, dictLookup fields "response" = some (.str s) ∧
          strContains s "result" = false)) →
      handle_complete_content decode content =
        .ok (.completed, [Part.data content])) ∧
    (∀ fields, content = .dict fields →
      ((∃ s, dictLookup fields "response" = some (.str s) ∧
          strContains s "result" = true) ∨
       (∃ rfields s, dictLookup fields "response" = some (.dict rfields) ∧
          dictLookup rfields "result" = some (.str s) ∧ decode s = none) ∨
       (∃ rfields gfields,
          dictLookup fields "response" = some (.dict rfields) ∧
          dictLookup rfields "result" = some (.dict gfields))) →
      handle_complete_content decode content = .error ()) ∧
    (∀ item state ps, item.is_task_complete = true →
      handle_complete_content decode item.content = .ok (state, ps) →
      stream_loop_body decode item =
        .ok { is_task_complete := true, task_state := state, parts := ps
              artifacts :=
                some [{ parts := ps, index := 0, append := some false }] }) := by
  refine ⟨?_, ?_, ?_, ?_, ?_⟩
  · intro s h; subst h; rfl
  · intro fields rfields s d h h1 h2 h3; subst h
    simp [handle_complete_content, pyIn, h1, h2, h3]
  · intro fields h hd; subst h
    rcases hd with h1 | ⟨rfields, h1, h2⟩ | ⟨s, h1, h2⟩
    · simp [handle_complete_content, pyIn, h1]
    · simp [handle_complete_content, pyIn, h1, h2]
    · simp [handle_complete_content, pyIn, h1, h2]
  · intro fields h hd; subst h
    rcases hd with ⟨s, h1, h2⟩ | ⟨rfields, s, h1, h2, h3⟩ |
        ⟨rfields, gfields, h1, h2⟩
    · simp [handle_complete_content, pyIn, h1, h2]
    · simp [handle_complete_content, pyIn, h1, h2, h3]
    · simp [handle_complete_content, pyIn, h1, h2]
  · intro item state ps h1 h2
    simp [stream_loop_body, h1, h2]

theorem C3_witness :
    dictLookup [("response", PyVal.dict [("result", .str "42")])] "response" =
      some (.dict [("result", .str "42")]) ∧
    dictLookup [("result", PyVal.str "42")] "result" = some (.str "42") ∧
    handle_complete_content (fun _ => some (.str "42"))
        (.dict [("response", .dict [("result", .str "42")])]) =
      .ok (.input_required, [Part.data (.str "42")]) :=
  ⟨rfl, rfl,
   (C3_complete_content_dispatch (fun _ => some (.str "42"))
     (.dict [("response", .dict [("result", .str "42")])])).2.1
     [("response", .dict [("result", .str "42")])] [("result", .str "42")]
     "42" (.str "42") rfl rfl rfl rfl⟩

theorem C3_counterexample :
    handle_complete_content (fun _ => none)
        (.dict [("response", .str "result")]) = .error () ∧
    handle_complete_content (fun _ => none)
        (.dict [("response", .str "result")]) ≠
      .ok (.completed, [Part.data (.dict [("response", .str "result")])]) :=
  ⟨rfl, by decide⟩

/-- C2: for every `SendTaskRequest` whose `acceptedOutputModes` have empty
intersection with the agent's `SUPPORTED_CONTENT_TYPES`, `on_send_task`
returns the incompatible-types protocol error and performs no task-store
mutation: the whole manager state is returned unchanged, so no upsert occurs
and no existing task is changed (and nothing is notified, and the agent is
never invoked). -/
theorem C2_incompatible_modes_no_mutation (verify : String → Bool)
    (agent : String → Except String String) (req : SendTaskRequest)
    (st : TMState)
    (h : ∀ m ∈ req.params.acceptedOutputModes, m ∉ SUPPORTED_CONTENT_TYPES) :
    on_send_task verify agent req st =
      { result := .err .incompatibleTypes, state := st
        notifications := [], agentCalls := [] } := by
  have hc : are_modalities_compatible req.params.acceptedOutputModes
      SUPPORTED_CONTENT_TYPES = false := by
    simp only [are_modalities_compatible, List.any_eq_false]
    intro m hm
    simpa using h m hm
  simp [on_send_task, validate_request, hc]

theorem C2_witness :
    (∀ m ∈ ["image/png"], m ∉ SUPPORTED_CONTENT_TYPES) ∧
    on_send_task (fun _ => true) (fun _ => .ok "x")
        { id := "r1"
          params := { exParams with acceptedOutputModes := ["image/png"] } }
        exSt =
      { result := .err .incompatibleTypes, state := exSt
        notifications := [], agentCalls := [] } :=
  ⟨by decide,
   C2_incompatible_modes_no_mutation (fun _ => true) (fun _ => .ok "x")
     { id := "r1"
       params := { exParams with acceptedOutputModes := ["image/png"] } }
     exSt (by decide)⟩

/-- C6: when the verification challenge for a push-notification URL fails,
`set_push_notification_info` returns `false` and leaves the whole manager
state — in particular the push-notification registry — unchanged, so any
previously registered config for the task id is unaffected and still
queryable via `get_push_notification_info`. -/
theorem C6_failed_verification_keeps_registry (verify : String → Bool)
    (st : TMState) (task_id : String) (cfg : PushNotificationConfig)
    (h : verify cfg.url = false) :
    set_push_notification_info verify st task_id cfg = (false, st) ∧
    get_push_notification_info
        (set_push_notification_info verify st task_id cfg).2 task_id =
      get_push_notification_info st task_id := by
  constructor <;> simp [set_push_notification_info, h]

theorem C6_witness :
    (fun (_ : String) => false) exCfg.url = false ∧
    (set_push_notification_info (fun _ => false)
        { tasks := [], pushConfigs := [("t1", exCfg)] } "t1"
        { url := "http://evil" } =
      (false, { tasks := [], pushConfigs := [("t1", exCfg)] }) ∧
    get_push_notification_info
        (set_push_notification_info (fun _ => false)
          { tasks := [], pushConfigs := [("t1", exCfg)] } "t1"
          { url := "http://evil" }).2 "t1" =
      get_push_notification_info
        { tasks := [], pushConfigs := [("t1", exCfg)] } "t1") :=
  ⟨rfl,
   C6_failed_verification_keeps_registry (fun _ => false)
     { tasks := [], pushConfigs := [("t1", exCfg)] } "t1"
     { url := "http://evil" } rfl⟩

/-- C8: every successful `_update_store` call replaces the task's status
wholesale with the given status (no field merging) and only appends to the
artifact sequence: the new artifact list is exactly the old one followed by
the passed artifacts (none when the argument was `None`), so the previous
artifacts remain, in order, a prefix, and none is removed; the updated task
is what is stored under the task id afterwards. -/
theorem C8_update_store_replaces_status_appends_artifacts (st : TMState)
    (task_id : String) (status : TaskStatus) (arts : Option (List Artifact))
    (t2 : Task) (st2 : TMState)
    (h : update_store st task_id status arts = .ok (t2, st2)) :
    t2.status = status ∧
    ∃ old, storeGet st.tasks task_id = some old ∧
      t2.artifacts.getD [] = old.artifacts.getD [] ++ arts.getD [] ∧
      old.artifacts.getD [] <+: t2.artifacts.getD [] ∧
      storeGet st2.tasks task_id = some t2 := by
  cases hg : storeGet st.tasks task_id with
  | none => simp [update_store, hg] at h
  | some old =>
      cases arts with
      | none =>
          simp only [update_store, hg, Except.ok.injEq, Prod.mk.injEq] at h
          obtain ⟨h1, h2⟩ := h
          subst h1; subst h2
          exact ⟨rfl, old, rfl, by simp, by simp, storeGet_storeSet_self ..⟩
      | some as =>
          simp only [update_store, hg, Except.ok.injEq, Prod.mk.injEq] at h
          obtain ⟨h1, h2⟩ := h
          subst h1; subst h2
          exact ⟨rfl, old, rfl, rfl, List.prefix_append _ _,
                 storeGet_storeSet_self ..⟩

/-- Fixtures for the C8 witness: a stored task with one prior artifact, and
the expected task and state after an appending update. -/
def c8Task0 : Task :=
  { id := "t1", sessionId := "s1", status := { state := .working }
    artifacts := some [{ parts := [Part.text "a0"] }] }

def c8St : TMState := { tasks := [("t1", c8Task0)], pushConfigs := [] }

def c8Task1 : Task :=
  { id := "t1", sessionId := "s1", status := { state := .completed }
    artifacts := some [{ parts := [Part.text "a0"] },
                       { parts := [Part.text "a1"] }] }

def c8St2 : TMState := { tasks := [("t1", c8Task1)], pushConfigs := [] }

theorem C8_witness :
    c8Task1.status = ({ state := .completed } : TaskStatus) ∧
    ∃ old, storeGet c8St.tasks "t1" = some old ∧
      c8Task1.artifacts.getD [] = old.artifacts.getD [] ++
        (some [({ parts := [Part.text "a1"] } : Artifact)]).getD [] ∧
      old.artifacts.getD [] <+: c8Task1.artifacts.getD [] ∧
      storeGet c8St2.tasks "t1" = some c8Task1 :=
  C8_update_store_replaces_status_appends_artifacts c8St "t1"
    { state := .completed } (some [{ parts := [Part.text "a1"] }])
    c8Task1 c8St2 (by decide)

/-- C9: for every query containing one of the day-planning trigger phrases,
when the fetched event list is empty, `CalendarAgent.invoke` returns
`is_task_complete = true`, `require_user_input = false`, and content equal to
the exact string "You have no events scheduled for today. Your day is wide
open!". -/
theorem C9_empty_day_plan (parseDt : Option String → Int)
    (fmtHM : Int → String) (fallback : InvokeResult) (query : String)
    (h : (PLAN_TRIGGERS.any fun w => strContains (strLower query) w) = true) :
    calendar_invoke (.events []) parseDt fmtHM fallback query =
      { is_task_complete := true, require_user_input := false
        content :=
          "You have no events scheduled for today. Your day is wide open!" } := by
  simp [calendar_invoke, h, plan_my_day]

theorem C9_witness :
    (PLAN_TRIGGERS.any fun w =>
        strContains (strLower "Please plan my day") w) = true ∧
    calendar_invoke (.events []) (fun _ => 0) (fun _ => "")
        { is_task_complete := false, require_user_input := false, content := "" }
        "Please plan my day" =
      { is_task_complete := true, require_user_input := false
        content :=
          "You have no events scheduled for today. Your day is wide open!" } :=
  ⟨by decide,
   C9_empty_day_plan (fun _ => 0) (fun _ => "")
     { is_task_complete := false, require_user_input := false, content := "" }
     "Please plan my day" (by decide)⟩

/-- The events handed back by `on_send_task_subscribe` (empty on an
immediate error response). -/
def subscribeEvents (r : SubscribeResult) : List StreamEvent :=
  match r with
  | .stream o => o.events
  | .errResp _ => []

/-- The one-item agent stream `{is_task_complete: true, content: "done"}`. -/
def oneDoneStream : String → List StreamItem :=
  fun _ => [{ is_task_complete := true, content := .str "done" }]

/-- No event in the list is a `WORKING`-labeled status event. -/
def noWorkingEvent (events : List StreamEvent) : Bool :=
  events.all fun e =>
    match e with
    | .status _ s _ => decide (s.state ≠ .working)
    | _ => true

theorem C4_counterexample :
    (subscribeEvents (on_send_task_subscribe (fun _ => true) (fun _ => none)
        oneDoneStream exReq exSt).1).head? =
      some (.status "t1"
        { state := .completed
          message := some { role := "agent", parts := [Part.text "done"] } }
        false) ∧
    noWorkingEvent
      (subscribeEvents (on_send_task_subscribe (fun _ => true) (fun _ => none)
        oneDoneStream exReq exSt).1) = true ∧
    (subscribeEvents (on_send_task_subscribe (fun _ => true) (fun _ => none)
        oneDoneStream exReq exSt).1).length = 3 := by
  decide

/-- C4 (amended): for an agent stream yielding exactly one
`{is_task_complete: true, content: "done"}`, the drained response sequence
is, in order, one non-final status event labeled `COMPLETED` (mirroring the
persisted final status, not `WORKING`) carrying one agent text part "done",
one artifact-update event whose artifact has the single text part "done"
(`index = 0`, `append = False`), and one final status event with
`state = COMPLETED`, `final = true` and no message — and nothing else. -/
theorem C4_one_done_stream_sequence (verify : String → Bool)
    (decode : String → Option PyVal) (req : SendTaskRequest) (st : TMState)
    (query : String)
    (h1 : are_modalities_compatible req.params.acceptedOutputModes
        SUPPORTED_CONTENT_TYPES = true)
    (h2 : req.params.pushNotification = none)
    (h3 : get_user_query req.params = .ok query) :
    ∃ o, (on_send_task_subscribe verify decode oneDoneStream req st).1 =
        .stream o ∧
      o.events =
        [.status req.params.id
           { state := .completed
             message := some { role := "agent", parts := [Part.text "done"] } }
           false,
         .artifact req.params.id
           { parts := [Part.text "done"], index := 0, append := some false },
         .status req.params.id { state := .completed } true] := by
  obtain ⟨t0, ht⟩ := upsert_task_get st req.params
  refine ⟨stream_generator decode oneDoneStream req (upsert_task st req.params),
    ?_, ?_⟩
  · simp [on_send_task_subscribe, validate_request, h1, h2]
  · simp [stream_generator, h3, oneDoneStream, run_stream_loop,
      stream_loop_body, handle_complete_content, update_store, ht]

theorem C4_witness :
    are_modalities_compatible exReq.params.acceptedOutputModes
        SUPPORTED_CONTENT_TYPES = true ∧
    exReq.params.pushNotification = none ∧
    get_user_query exReq.params = .ok "hi" ∧
    ∃ o, (on_send_task_subscribe (fun _ => true) (fun _ => none) oneDoneStream
        exReq exSt).1 = .stream o ∧
      o.events =
        [.status "t1"
           { state := .completed
             message := some { role := "agent", parts := [Part.text "done"] } }
           false,
         .artifact "t1"
           { parts := [Part.text "done"], index := 0, append := some false },
         .status "t1" { state := .completed } true] :=
  ⟨by decide, rfl, rfl,
   C4_one_done_stream_sequence (fun _ => true) (fun _ => none) exReq exSt
     "hi" (by decide) rfl rfl⟩

/-- The C5/C7 request fixtures. -/
def c5Req : SendTaskRequest :=
  { id := "r1", params := { exParams with pushNotification := some exCfg } }

theorem C5_counterexample :
    (on_send_task_subscribe (fun _ => false) (fun _ => none) (fun _ => [])
        c5Req exSt).1 =
      .errResp (.invalidParams "Push notification URL is invalid") ∧
    storeGet (on_send_task_subscribe (fun _ => false) (fun _ => none)
        (fun _ => []) c5Req exSt).2.tasks "t1" =
      some { id := "t1", sessionId := "s1"
             status := { state := .submitted }, artifacts := none } := by
  decide

/-- C5 (amended): when a push-notification config's URL fails the
verification challenge (with compatible output modes and a non-empty URL),
both entry points fail with the "invalid params" error; the synchronous
`on_send_task` leaves the manager state untouched — no task is created — but
the streaming `on_send_task_subscribe` has already upserted the task before
verification, so a `SUBMITTED` task for that id is in the store when the
error is returned. -/
theorem C5_failed_push_verification (verify : String → Bool)
    (agent : String → Except String String) (decode : String → Option PyVal)
    (agentStream : String → List StreamItem) (req : SendTaskRequest)
    (st : TMState) (cfg : PushNotificationConfig)
    (hm : are_modalities_compatible req.params.acceptedOutputModes
        SUPPORTED_CONTENT_TYPES = true)
    (hp : req.params.pushNotification = some cfg)
    (hu : cfg.url ≠ "")
    (hv : verify cfg.url = false) :
    on_send_task verify agent req st =
      { result := .err (.invalidParams "Push notification URL is invalid")
        state := st, notifications := [], agentCalls := [] } ∧
    on_send_task_subscribe verify decode agentStream req st =
      (.errResp (.invalidParams "Push notification URL is invalid"),
       upsert_task st req.params) ∧
    (storeGet (upsert_task st req.params).tasks req.params.id).isSome = true := by
  refine ⟨?_, ?_, ?_⟩
  · simp [on_send_task, validate_request, hm, hp, hu,
      set_push_notification_info, hv]
  · simp [on_send_task_subscribe, validate_request, hm, hp, hu,
      set_push_notification_info, hv]
  · obtain ⟨t, ht⟩ := upsert_task_get st req.params
    simp [ht]

theorem C5_witness :
    are_modalities_compatible c5Req.params.acceptedOutputModes
        SUPPORTED_CONTENT_TYPES = true ∧
    c5Req.params.pushNotification = some exCfg ∧
    exCfg.url ≠ "" ∧
    (fun (_ : String) => false) exCfg.url = false ∧
    on_send_task (fun _ => false) (fun _ => .ok "x") c5Req exSt =
      { result := .err (.invalidParams "Push notification URL is invalid")
        state := exSt, notifications := [], agentCalls := [] } :=
  ⟨by decide, rfl, by decide, rfl,
   (C5_failed_push_verification (fun _ => false) (fun _ => .ok "x")
     (fun _ => none) (fun _ => []) c5Req exSt exCfg (by decide) rfl
     (by decide) rfl).1⟩

/-- A request whose first message part is a structured data part. -/
def c7Req : SendTaskRequest :=
  { id := "r1"
    params := { id := "t1", sessionId := "s1"
                message := { role := "user", parts := [Part.data (.dict [])] }
                acceptedOutputModes := ["text"] } }

theorem C7_counterexample :
    (on_send_task (fun _ => true) (fun _ => .ok "x") c7Req exSt).result =
      .raised "Only text parts are supported" ∧
    (on_send_task (fun _ => true) (fun _ => .ok "x") c7Req exSt).agentCalls =
      [] ∧
    storeGet (on_send_task (fun _ => true) (fun _ => .ok "x") c7Req
        exSt).state.tasks "t1" =
      some { id := "t1", sessionId := "s1"
             status := { state := .working }, artifacts := some [] } := by
  decide

/-- C7 (amended): when the inbound message's first part is not a text part,
`_get_user_query` raises "Only text parts are supported" before any agent
invocation in both paths; in the streaming generator this also precedes any
task-store update (the generator raises before its `try`, leaving the state
untouched), but in `on_send_task` the task has already been upserted and
transitioned to `WORKING` in the store before the error is raised. -/
theorem C7_nontext_first_part (verify : String → Bool)
    (agent : String → Except String String) (decode : String → Option PyVal)
    (agentStream : String → List StreamItem) (req : SendTaskRequest)
    (st : TMState)
    (hm : are_modalities_compatible req.params.acceptedOutputModes
        SUPPORTED_CONTENT_TYPES = true)
    (hp : req.params.pushNotification = none)
    (hq : get_user_query req.params = .error "Only text parts are supported") :
    ((on_send_task verify agent req st).result =
        .raised "Only text parts are supported" ∧
     (on_send_task verify agent req st).agentCalls = [] ∧
     ∃ t, storeGet (on_send_task verify agent req st).state.tasks
         req.params.id = some t ∧
       t.status = { state := .working, message := none }) ∧
    stream_generator decode agentStream req st =
      { raised := some "Only text parts are supported", events := []
        state := st, notifications := [], agentCalls := [] } := by
  obtain ⟨t0, ht⟩ := upsert_task_get st req.params
  refine ⟨⟨?_, ?_, ?_⟩, ?_⟩
  · simp [on_send_task, validate_request, hm, hp, on_send_task_core,
      update_store, ht, tm_invoke, hq]
  · simp [on_send_task, validate_request, hm, hp, on_send_task_core,
      update_store, ht, tm_invoke, hq]
  · refine ⟨{ t0 with
        status := { state := .working, message := none },
        artifacts := some (t0.artifacts.getD [] ++ []) }, ?_, rfl⟩
    simp only [on_send_task, validate_request, hm, hp, Bool.not_eq_true,
      if_true, on_send_task_core, update_store, ht, tm_invoke, hq]
    exact storeGet_storeSet_self ..
  · simp [stream_generator, hq]

theorem C7_witness :
    are_modalities_compatible c7Req.params.acceptedOutputModes
        SUPPORTED_CONTENT_TYPES = true ∧
    c7Req.params.pushNotification = none ∧
    get_user_query c7Req.params = .error "Only text parts are supported" ∧
    stream_generator (fun _ => none) (fun _ => []) c7Req exSt =
      { raised := some "Only text parts are supported", events := []
        state := exSt, notifications := [], agentCalls := [] } :=
  ⟨by decide, rfl, rfl,
   (C7_nontext_first_part (fun _ => true) (fun _ => .ok "x") (fun _ => none)
     (fun _ => []) c7Req exSt (by decide) rfl rfl).2⟩

/-- C10: for an agent stream that yields zero items, `_stream_generator`
yields exactly one response — the JSON-RPC internal-error response — and
performs no task-store update and no notification: the post-loop code reads
the never-bound loop variables, which the surrounding handler catches. -/
theorem C10_empty_stream_single_internal_error
    (decode : String → Option PyVal)
    (agentStream : String → List StreamItem) (req : SendTaskRequest)
    (st : TMState) (query : String)
    (hq : get_user_query req.params = .ok query)
    (hs : agentStream query = []) :
    stream_generator decode agentStream req st =
      { raised := none, events := [streamInternalError], state := st
        notifications := [], agentCalls := [query] } := by
  simp [stream_generator, hq, hs, run_stream_loop]

theorem C10_witness :
    get_user_query exReq.params = .ok "hi" ∧
    (fun (_ : String) => ([] : List StreamItem)) "hi" = [] ∧
    stream_generator (fun _ => none) (fun _ => []) exReq exSt =
      { raised := none, events := [streamInternalError], state := exSt
        notifications := [], agentCalls := ["hi"] } :=
  ⟨rfl, rfl,
   C10_empty_stream_single_internal_error (fun _ => none) (fun _ => [])
     exReq exSt "hi" rfl rfl⟩

end A2A
